import Mathlib

/-!
Shallow embedding of the moderation / auto-reply core of the
`API_for_posts_and_coments` repository
(`src/repository/comments.py`, `src/repository/posts.py`,
`src/schemas/schemas.py`, `src/database/models.py`).

Modelling conventions:
* Machine state is the set of persisted rows, modelled as an explicit
  store (a list of rows together with the autoincrement counter).
* Python exceptions are modelled with `Except PyErr`; every operation
  also returns the store, since in Python the database keeps whatever
  was already committed when an exception propagates.
* A SQLAlchemy commit either appends the pending row (assigning the next
  id, as `db.refresh` observes) or raises; commit outcomes are an oracle
  `oks : Nat → Bool` indexed by the commit sequence number, so that
  persistence failures can be quantified over.
* `time.sleep` raises `TypeError` on `None` and `ValueError` on a
  negative number, else returns.
* The disallowed-word set `WORDS` is loaded at process start from
  `words_template.json` (a file outside the embedded modules); all
  definitions are parametrised by that word list `W`.
* Pydantic's `model_dump(exclude_unset=True)` is modelled as a full dump:
  for every field of `CommentCreate` the pydantic default coincides with
  the database column default (`done=False`, `auto_reply_flag=False`,
  `auto_reply_time=None`), so omitting an unset field and letting the
  column default apply yields the same row.
-/

/-- Python `str.lower()`: lowercase every character. -/
def pyLower (s : String) : String := String.mk (s.data.map Char.toLower)

/-- Accumulator pass behind `pySplit`: walk the characters, collecting
the current token in reverse in `acc` and emitting it at each whitespace
boundary, so that runs of whitespace never produce empty tokens. -/
def splitWsAux : List Char → List Char → List String
  | [], acc => if acc.isEmpty then [] else [String.mk acc.reverse]
  | ch :: rest, acc =>
    if ch.isWhitespace then
      (if acc.isEmpty then [] else [String.mk acc.reverse]) ++ splitWsAux rest []
    else
      splitWsAux rest (ch :: acc)

/-- Python `str.split()` with no separator: split on runs of whitespace,
dropping empty pieces. -/
def pySplit (s : String) : List String := splitWsAux s.data []

/-- Python `set.intersection` of the word set `W` with a token list,
as the list of elements of `W` occurring among the tokens. -/
def py_set_intersection (W : List String) (tokens : List String) : List String :=
  W.filter (fun w => tokens.contains w)

/-- Python `needle in hay` on strings: substring containment. -/
def pyContains (hay needle : String) : Bool :=
  decide (List.IsInfix needle.data hay.data)

/-- The classification performed inline at creation time in
`create_comment` / `create_post`:
`words = text.lower().split(); bad = WORDS.intersection(words);
blocked = bool(bad)`. -/
def classify (W : List String) (text : String) : Bool :=
  !(py_set_intersection W (pySplit (pyLower text))).isEmpty

/-- Python exceptions that the embedded operations can raise. -/
inductive PyErr where
  | typeError
  | valueError
  | nameError
  | persistenceError
  deriving DecidableEq, Repr

/-- `time.sleep(t)` where `t` is the nullable `auto_reply_time`. -/
def pySleep : Option Int → Except PyErr Unit
  | none => .error .typeError
  | some n => if n < 0 then .error .valueError else .ok ()

/-- Schema `CommentCreate` (`src/schemas/schemas.py` lines 35-41),
defaults as in pydantic. -/
structure CommentCreate where
  comment_text : String
  done : Bool := false
  auto_reply_flag : Bool := false
  auto_reply_time : Option Int := none
  deriving DecidableEq, Repr

/-- A persisted row of the `comments` table (`src/database/models.py`). -/
structure Comment where
  id : Nat
  comment_text : String
  done : Bool
  blocked : Bool
  auto_reply_flag : Bool
  auto_reply_time : Option Int
  user_id : Nat
  post_id : Nat
  deriving DecidableEq, Repr

/-- The comments table: persisted rows plus the autoincrement counter. -/
structure Store where
  rows : List Comment
  nextId : Nat
  deriving DecidableEq, Repr

/-- The reply generator `generate_relevant_response`
(`src/repository/comments.py`): case-insensitive substring checks,
help before issue, with a catch-all. -/
def generate_relevant_response (comment_text : String) : String :=
  if pyContains (pyLower comment_text) "help" then
    "Thanks for your question! We will help you soon."
  else if pyContains (pyLower comment_text) "issue" then
    "Sorry to hear about your issue. We are looking into it."
  else
    "Thank you for your comment!"

/-- The original `Comment` row that `create_comment` builds from the
draft and hands to `db.add`: classified text, caller's post and user,
next autoincrement id. -/
def original_of (W : List String) (body : CommentCreate)
    (post_id user_id : Nat) (freshId : Nat) : Comment :=
  { id := freshId
    comment_text := body.comment_text
    done := body.done
    blocked := classify W body.comment_text
    auto_reply_flag := body.auto_reply_flag
    auto_reply_time := body.auto_reply_time
    user_id := user_id
    post_id := post_id }

/-- `create_comment` (`src/repository/comments.py`): classify, persist
(`db.add; db.commit; db.refresh`), then — the persisted comment's
`auto_reply_flag` equals the draft's — if the flag is set, sleep for
`auto_reply_time`, generate a reply and recursively create it with the
flag forced to `False`; finally return the original comment.  A failed
commit raises and leaves the store as it was; an exception raised after
the first commit propagates with the original row already durable. -/
def create_comment (W : List String) (oks : Nat → Bool) (k : Nat)
    (body : CommentCreate) (post_id user_id : Nat) (st : Store) :
    Store × Except PyErr Comment :=
  if oks k then
    let c := original_of W body post_id user_id st.nextId
    let st1 : Store := { rows := st.rows ++ [c], nextId := st.nextId + 1 }
    if _hfl : body.auto_reply_flag = true then
      match pySleep body.auto_reply_time with
      | .error e => (st1, .error e)
      | .ok _ =>
        let reply_text := generate_relevant_response body.comment_text
        match create_comment W oks (k + 1)
            { comment_text := reply_text, auto_reply_flag := false }
            post_id user_id st1 with
        | (st2, .error e) => (st2, .error e)
        | (st2, .ok _) => (st2, .ok c)
    else
      (st1, .ok c)
  else
    (st, .error .persistenceError)
termination_by (if body.auto_reply_flag then 1 else 0)
decreasing_by simp_all

/-- The transient `Comment` object that `update_comment` constructs from
the draft: it is never passed to `db.add`, so `id` is unassigned and
`blocked` is `None` (the column default would only apply at insert). -/
structure TransientComment where
  comment_text : String
  done : Bool
  auto_reply_flag : Bool
  auto_reply_time : Option Int
  blocked : Option Bool
  user_id : Nat
  post_id : Nat
  deriving DecidableEq, Repr

/-- The row predicate of the ownership-scoped lookup
`filter_by(id=comment_id, post_id=post.id, user_id=user.id)`. -/
def comment_triple_match (comment_id post_id user_id : Nat) (c : Comment) : Bool :=
  c.id == comment_id && c.post_id == post_id && c.user_id == user_id

/-- `update_comment` (`src/repository/comments.py`): look the comment up
by `(id, post, owner)`; if found, build a fresh `Comment` object from the
draft — without `blocked` and without ever calling `db.add` on it — and
commit.  The session has no pending changes, so the commit writes
nothing; the constructed transient object is returned. -/
def update_comment (comment_id : Nat) (body : CommentCreate)
    (post_id user_id : Nat) (st : Store) : Store × Option TransientComment :=
  match st.rows.find? (comment_triple_match comment_id post_id user_id) with
  | none => (st, none)
  | some _ =>
    let c : TransientComment :=
      { comment_text := body.comment_text
        done := body.done
        auto_reply_flag := body.auto_reply_flag
        auto_reply_time := body.auto_reply_time
        blocked := none
        user_id := user_id
        post_id := post_id }
    (st, some c)

/-- `remove_comment` (`src/repository/comments.py`): look the comment up
by `(id, post, owner)`; if found, delete that row and return it, else
return `None` with the store untouched. -/
def remove_comment (comment_id post_id user_id : Nat) (st : Store) :
    Store × Option Comment :=
  match st.rows.find? (comment_triple_match comment_id post_id user_id) with
  | none => (st, none)
  | some c =>
    ({ st with rows := st.rows.eraseP (fun x => x.id == c.id) }, some c)

/-- `get_all_comments` (`src/repository/comments.py`):
`filter_by(post_id=post_id, blocked=False).offset(skip).limit(limit)`. -/
def get_all_comments (skip limit : Nat) (post_id : Nat) (st : Store) :
    List Comment :=
  (((st.rows.filter (fun c => c.post_id == post_id && c.blocked == false)).drop
      skip).take limit)

/-- `get_my_comments_to_post` (`src/repository/comments.py`): as
`get_all_comments` with the additional `user_id` filter. -/
def get_my_comments_to_post (skip limit : Nat) (post_id user_id : Nat)
    (st : Store) : List Comment :=
  (((st.rows.filter (fun c =>
      c.post_id == post_id && c.user_id == user_id && c.blocked == false)).drop
        skip).take limit)

/-- Schema `PostCreate` (= `PostBase`, `src/schemas/schemas.py`). -/
structure PostCreate where
  post_text : String
  post_download : Option String := none
  done : Bool := false
  deriving DecidableEq, Repr

/-- A persisted row of the `posts` table (`src/database/models.py`). -/
structure Post where
  id : Nat
  post_text : String
  post_download : Option String
  done : Bool
  blocked : Bool
  user_id : Nat
  deriving DecidableEq, Repr

/-- The posts table: persisted rows plus the autoincrement counter. -/
structure PostStore where
  rows : List Post
  nextId : Nat
  deriving DecidableEq, Repr

/-- The transient `Post` object that `update_post` constructs (never
passed to `db.add`; here `blocked` is passed explicitly, `done` is not
passed at all, and `id` is unassigned). -/
structure TransientPost where
  post_text : String
  post_download : Option String
  blocked : Bool
  user_id : Nat
  deriving DecidableEq, Repr

/-- `create_post` (`src/repository/posts.py`): classify the text exactly
as `create_comment` does, then persist the new post with the computed
`blocked` flag.  (Commit assumed to succeed; no claim quantifies over
post-side persistence failures.) -/
def create_post (W : List String) (body : PostCreate) (user_id : Nat)
    (pst : PostStore) : PostStore × Post :=
  let blocked := classify W body.post_text
  let p : Post :=
    { id := pst.nextId
      post_text := body.post_text
      post_download := body.post_download
      done := false
      blocked := blocked
      user_id := user_id }
  ({ rows := pst.rows ++ [p], nextId := pst.nextId + 1 }, p)

/-- The guard of the reclassification branch in `update_post`:
`bad_words_in_text != None`, where `bad_words_in_text` is the Python set
returned by `WORDS.intersection(words)` — a set value, embedded as
`some …` of `Option (List String)`, compared against `None`. -/
def update_post_guard (W : List String) (text : String) : Bool :=
  let bad_words_in_text : Option (List String) :=
    some (py_set_intersection W (pySplit (pyLower text)))
  decide (bad_words_in_text ≠ none)

/-- `update_post` (`src/repository/posts.py`): look the post up by
`(id, owner)`; if found, recompute the intersection, and under the guard
`bad_words_in_text != None` set `blocked = True`; were the guard false,
the local `blocked` would be unbound and constructing the new `Post`
would raise `NameError`.  The constructed `Post` is never passed to
`db.add`, so the commit writes nothing and the transient object is
returned. -/
def update_post (W : List String) (post_id : Nat) (body : PostCreate)
    (user_id : Nat) (pst : PostStore) :
    PostStore × Except PyErr (Option TransientPost) :=
  match pst.rows.find? (fun p => p.id == post_id && p.user_id == user_id) with
  | none => (pst, .ok none)
  | some _ =>
    let blocked : Option Bool :=
      if update_post_guard W body.post_text then some true else none
    match blocked with
    | none => (pst, .error .nameError)
    | some b =>
      (pst, .ok (some
        { post_text := body.post_text
          post_download := body.post_download
          blocked := b
          user_id := user_id }))

/-- `get_all_posts` (`src/repository/posts.py`):
`filter_by(blocked=False).offset(skip).limit(limit)`. -/
def get_all_posts (skip limit : Nat) (pst : PostStore) : List Post :=
  ((pst.rows.filter (fun p => p.blocked == false)).drop skip).take limit

/-- `get_my_posts` (`src/repository/posts.py`): as `get_all_posts` with
the additional `user_id` filter. -/
def get_my_posts (skip limit : Nat) (user_id : Nat) (pst : PostStore) :
    List Post :=
  ((pst.rows.filter (fun p =>
      p.user_id == user_id && p.blocked == false)).drop skip).take limit

/-- C1: the classification performed at comment/post creation sets
`blocked = true` iff the whitespace-separated tokens of the lowercased
text have non-empty intersection with the disallowed-word set `W` —
exact whole-token match, never substring match: "badly written" against
`{"bad"}` is not blocked. -/
theorem classify_blocked_iff_token_intersection :
    (∀ (W : List String) (T : String),
      classify W T = true ↔ ∃ w, w ∈ W ∧ w ∈ pySplit (pyLower T)) ∧
    (∀ (W : List String) (body : CommentCreate) (post_id user_id fid : Nat),
      (original_of W body post_id user_id fid).blocked =
        classify W body.comment_text) ∧
    (∀ (W : List String) (body : PostCreate) (user_id : Nat)
        (pst : PostStore),
      ((create_post W body user_id pst).2).blocked =
        classify W body.post_text) ∧
    classify ["bad"] "badly written" = false := by
  refine ⟨?_, fun _ _ _ _ _ => rfl, fun _ _ _ _ => rfl, by decide⟩
  intro W T
  simp [classify, py_set_intersection, List.isEmpty_iff, List.filter_eq_nil_iff]

/-- C2: with `auto_reply_flag = true` and `auto_reply_time = 0` and
commits succeeding, `create_comment` persists exactly two comments for
the post — the original and one synthetic reply with
`auto_reply_flag = false` (recursion stops at depth one); with
`auto_reply_flag = false` exactly one comment is persisted. -/
theorem create_comment_reply_count (W : List String) (body : CommentCreate)
    (post_id user_id : Nat) (st : Store) :
    (body.auto_reply_flag = true → body.auto_reply_time = some 0 →
      ∃ reply : Comment, reply.auto_reply_flag = false ∧
        reply.post_id = post_id ∧
        create_comment W (fun _ => true) 0 body post_id user_id st =
          ({ rows := st.rows ++
                [original_of W body post_id user_id st.nextId, reply],
             nextId := st.nextId + 2 },
           .ok (original_of W body post_id user_id st.nextId))) ∧
    (body.auto_reply_flag = false →
      create_comment W (fun _ => true) 0 body post_id user_id st =
        ({ rows := st.rows ++ [original_of W body post_id user_id st.nextId],
           nextId := st.nextId + 1 },
         .ok (original_of W body post_id user_id st.nextId))) := by
  constructor
  · intro hf ht
    refine ⟨original_of W
      { comment_text := generate_relevant_response body.comment_text,
        auto_reply_flag := false } post_id user_id (st.nextId + 1),
      rfl, rfl, ?_⟩
    rw [create_comment]
    simp [hf, ht, pySleep]
    rw [create_comment]
    simp [original_of]
  · intro hf
    rw [create_comment]
    simp [hf]

/-- Witness for C2: a concrete auto-reply draft yields exactly the
original and one non-auto-reply synthetic comment. -/
theorem create_comment_reply_count_witness :
    ∃ reply : Comment, reply.auto_reply_flag = false ∧ reply.post_id = 7 ∧
      create_comment ["bad"] (fun _ => true) 0
          { comment_text := "hello", auto_reply_flag := true,
            auto_reply_time := some 0 } 7 3 { rows := [], nextId := 1 } =
        ({ rows := [original_of ["bad"]
              { comment_text := "hello", auto_reply_flag := true,
                auto_reply_time := some 0 } 7 3 1, reply],
           nextId := 1 + 2 },
         .ok (original_of ["bad"]
              { comment_text := "hello", auto_reply_flag := true,
                auto_reply_time := some 0 } 7 3 1)) :=
  (create_comment_reply_count ["bad"]
    { comment_text := "hello", auto_reply_flag := true,
      auto_reply_time := some 0 } 7 3 { rows := [], nextId := 1 }).1 rfl rfl

/-- C8: once the original comment's commit succeeded, every continuation
of `create_comment` — sleep raising, the reply's commit failing, or full
success — returns a store that still starts with the untouched original
row right after the prior rows: the original is never rolled back. -/
theorem create_comment_original_durable (W : List String) (oks : Nat → Bool)
    (k : Nat) (body : CommentCreate) (post_id user_id : Nat) (st : Store)
    (hok : oks k = true) :
    ∃ tail : List Comment,
      (create_comment W oks k body post_id user_id st).1.rows =
        st.rows ++ original_of W body post_id user_id st.nextId :: tail := by
  rw [create_comment]
  by_cases hf : body.auto_reply_flag = true
  · cases hsl : pySleep body.auto_reply_time with
    | error e =>
      refine ⟨[], ?_⟩
      simp [hok, hf, hsl]
    | ok u =>
      simp only [hok, if_true, hf, dite_true, hsl]
      rw [create_comment]
      by_cases hok2 : oks (k + 1) = true
      · refine ⟨[original_of W
          { comment_text := generate_relevant_response body.comment_text,
            auto_reply_flag := false } post_id user_id (st.nextId + 1)], ?_⟩
        simp [hok2]
      · refine ⟨[], ?_⟩
        simp only [Bool.not_eq_true] at hok2
        simp [hok2]
  · simp only [Bool.not_eq_true] at hf
    refine ⟨[], ?_⟩
    simp [hok, hf]

/-- Witness for C8: the original comment's commit succeeds and the
reply's commit fails, yet the returned store still holds the original
row. -/
theorem create_comment_original_durable_witness :
    ∃ tail : List Comment,
      (create_comment ["bad"] (fun n => decide (n = 0)) 0
          { comment_text := "hello", auto_reply_flag := true,
            auto_reply_time := some 0 } 7 3 { rows := [], nextId := 1 }).1.rows =
        [] ++ original_of ["bad"]
          { comment_text := "hello", auto_reply_flag := true,
            auto_reply_time := some 0 } 7 3 1 :: tail :=
  create_comment_original_durable ["bad"] (fun n => decide (n = 0)) 0
    { comment_text := "hello", auto_reply_flag := true,
      auto_reply_time := some 0 } 7 3 { rows := [], nextId := 1 } (by decide)

/-- C9: whenever `create_comment` returns successfully, the returned
value is the original comment built from the caller's draft (fresh id
taken from the initial store), never the synthetic reply. -/
theorem create_comment_returns_original (W : List String) (oks : Nat → Bool)
    (k : Nat) (body : CommentCreate) (post_id user_id : Nat) (st st' : Store)
    (c : Comment)
    (h : create_comment W oks k body post_id user_id st = (st', .ok c)) :
    c = original_of W body post_id user_id st.nextId := by
  rw [create_comment] at h
  by_cases hok : oks k = true
  · simp only [hok, if_true] at h
    by_cases hf : body.auto_reply_flag = true
    · simp only [hf, dite_true] at h
      cases hsl : pySleep body.auto_reply_time with
      | error e => rw [hsl] at h; simp at h
      | ok u =>
        rw [hsl] at h
        rcases hr : create_comment W oks (k + 1)
            { comment_text := generate_relevant_response body.comment_text,
              auto_reply_flag := false } post_id user_id
            { rows := st.rows ++ [original_of W body post_id user_id st.nextId],
              nextId := st.nextId + 1 } with ⟨st2, r2⟩
        rw [hr] at h
        cases r2 <;> simp_all
    · simp only [Bool.not_eq_true] at hf
      simp [hf] at h
      exact h.2.symm
  · simp only [Bool.not_eq_true] at hok
    simp [hok] at h

/-- Witness for C9: a concrete successful creation returns exactly the
original comment built from the draft. -/
theorem create_comment_returns_original_witness :
    create_comment [] (fun _ => true) 0 { comment_text := "hi" } 7 3
        { rows := [], nextId := 1 } =
      ({ rows := [original_of [] { comment_text := "hi" } 7 3 1],
         nextId := 1 + 1 },
       .ok (original_of [] { comment_text := "hi" } 7 3 1)) ∧
    original_of [] { comment_text := "hi" } 7 3 1 =
      original_of [] { comment_text := "hi" } 7 3 1 := by
  have hcc : create_comment [] (fun _ => true) 0 { comment_text := "hi" } 7 3
      { rows := [], nextId := 1 } =
      ({ rows := [original_of [] { comment_text := "hi" } 7 3 1],
         nextId := 1 + 1 },
       .ok (original_of [] { comment_text := "hi" } 7 3 1)) := by
    rw [create_comment]
    simp
  exact ⟨hcc, create_comment_returns_original [] (fun _ => true) 0
    { comment_text := "hi" } 7 3 { rows := [], nextId := 1 } _ _ hcc⟩

/-- C10: the schema default leaves `auto_reply_time = None` when the
field is omitted, and a draft with `auto_reply_flag = true` and
`auto_reply_time = None` persists the original comment, then fails with
`TypeError` at `sleep(None)`: no synthetic reply is created, yet the
original row remains in the store. -/
theorem create_comment_none_sleep (W : List String) (oks : Nat → Bool)
    (k : Nat) (T : String) (body : CommentCreate) (post_id user_id : Nat)
    (st : Store) :
    (({ comment_text := T, auto_reply_flag := true } :
        CommentCreate).auto_reply_time = none) ∧
    (body.auto_reply_flag = true → body.auto_reply_time = none →
      oks k = true →
      create_comment W oks k body post_id user_id st =
        ({ rows := st.rows ++ [original_of W body post_id user_id st.nextId],
           nextId := st.nextId + 1 },
         .error .typeError)) := by
  refine ⟨rfl, ?_⟩
  intro hf ht hok
  rw [create_comment]
  simp [hok, hf, ht, pySleep]

/-- Witness for C10: a concrete flagged draft with the default `None`
delay persists one row and raises `TypeError`. -/
theorem create_comment_none_sleep_witness :
    create_comment [] (fun _ => true) 0
        { comment_text := "hi", auto_reply_flag := true } 7 3
        { rows := [], nextId := 1 } =
      ({ rows := [original_of []
            { comment_text := "hi", auto_reply_flag := true } 7 3 1],
         nextId := 1 + 1 },
       .error .typeError) :=
  (create_comment_none_sleep [] (fun _ => true) 0 "hi"
    { comment_text := "hi", auto_reply_flag := true } 7 3
    { rows := [], nextId := 1 }).2 rfl rfl rfl

/-- C3 evidence: at a concrete existing `(id, post, owner)` triple the
update operation leaves the stored rows exactly as they were — the old
text survives, nothing with the new text is inserted — and the value it
returns is a transient object whose `blocked` was never recomputed from
the new text (it is `None`): the new text is not persisted. -/
theorem update_comment_new_text_not_persisted :
    update_comment 1 { comment_text := "new text" } 7 3
        { rows := [⟨1, "old text", false, false, false, none, 3, 7⟩],
          nextId := 2 } =
      ({ rows := [⟨1, "old text", false, false, false, none, 3, 7⟩],
         nextId := 2 },
       some ⟨"new text", false, false, none, none, 3, 7⟩) := by
  decide

/-- C4: when no stored comment matches the `(id, post, owner)` triple,
both `update_comment` and `remove_comment` return `None` and leave the
store exactly unchanged. -/
theorem comment_missing_triple_noop (comment_id post_id user_id : Nat)
    (body : CommentCreate) (st : Store)
    (h : ∀ c ∈ st.rows,
      comment_triple_match comment_id post_id user_id c = false) :
    update_comment comment_id body post_id user_id st = (st, none) ∧
    remove_comment comment_id post_id user_id st = (st, none) := by
  have hf : st.rows.find?
      (comment_triple_match comment_id post_id user_id) = none := by
    rw [List.find?_eq_none]
    intro c hc
    simp [h c hc]
  constructor <;> simp [update_comment, remove_comment, hf]

/-- Witness for C4 on a concrete store holding one non-matching row. -/
theorem comment_missing_triple_noop_witness :
    update_comment 1 { comment_text := "t" } 7 3
        { rows := [⟨5, "x", false, false, false, none, 2, 9⟩], nextId := 6 } =
      ({ rows := [⟨5, "x", false, false, false, none, 2, 9⟩], nextId := 6 },
       none) ∧
    remove_comment 1 7 3
        { rows := [⟨5, "x", false, false, false, none, 2, 9⟩], nextId := 6 } =
      ({ rows := [⟨5, "x", false, false, false, none, 2, 9⟩], nextId := 6 },
       none) :=
  comment_missing_triple_noop 1 7 3 { comment_text := "t" }
    { rows := [⟨5, "x", false, false, false, none, 2, 9⟩], nextId := 6 }
    (by decide)

/-- C5: in `update_post` the guard `bad_words_in_text != None` compares
a set value against `None` and is therefore true for every input text;
whenever a matching post exists, the reclassification branch is taken
and the post object built by the update carries `blocked = true`
regardless of the text's content. -/
theorem update_post_always_blocks (W : List String) (post_id : Nat)
    (body : PostCreate) (user_id : Nat) (pst : PostStore)
    (h : (pst.rows.find?
      (fun p => p.id == post_id && p.user_id == user_id)).isSome = true) :
    (∀ text : String, update_post_guard W text = true) ∧
    update_post W post_id body user_id pst =
      (pst, .ok (some { post_text := body.post_text,
                        post_download := body.post_download,
                        blocked := true,
                        user_id := user_id })) := by
  refine ⟨fun text => by simp [update_post_guard], ?_⟩
  obtain ⟨p, hp⟩ := Option.isSome_iff_exists.mp h
  simp [update_post, hp, update_post_guard]

/-- Witness for C5: a clean text ("all fine") still yields a
`blocked = true` updated post. -/
theorem update_post_always_blocks_witness :
    (∀ text : String, update_post_guard ["bad"] text = true) ∧
    update_post ["bad"] 7 { post_text := "all fine" } 3
        { rows := [⟨7, "old", none, false, false, 3⟩], nextId := 8 } =
      ({ rows := [⟨7, "old", none, false, false, 3⟩], nextId := 8 },
       .ok (some { post_text := "all fine", post_download := none,
                   blocked := true, user_id := 3 })) :=
  update_post_always_blocks ["bad"] 7 { post_text := "all fine" } 3
    { rows := [⟨7, "old", none, false, false, 3⟩], nextId := 8 } (by decide)

/-- C6: none of the list operations — comments of a post, own comments
of a post, all posts, own posts — ever returns an entity whose `blocked`
flag is true, for every store and every skip/limit/post/owner filter. -/
theorem list_operations_exclude_blocked (skip limit post_id user_id : Nat)
    (st : Store) (pst : PostStore) :
    (∀ c ∈ get_all_comments skip limit post_id st, c.blocked = false) ∧
    (∀ c ∈ get_my_comments_to_post skip limit post_id user_id st,
      c.blocked = false) ∧
    (∀ p ∈ get_all_posts skip limit pst, p.blocked = false) ∧
    (∀ p ∈ get_my_posts skip limit user_id pst, p.blocked = false) := by
  refine ⟨?_, ?_, ?_, ?_⟩ <;>
    · intro x hx
      have hx2 := List.drop_subset _ _ (List.take_subset _ _ hx)
      have hx3 := (List.mem_filter.mp hx2).2
      simp_all

/-- Witness for C6 on concrete one-row stores. -/
theorem list_operations_exclude_blocked_witness :
    (⟨1, "a", false, false, false, none, 3, 7⟩ : Comment).blocked = false ∧
    (⟨1, "a", false, false, false, none, 3, 7⟩ : Comment).blocked = false ∧
    (⟨7, "p", none, false, false, 3⟩ : Post).blocked = false ∧
    (⟨7, "p", none, false, false, 3⟩ : Post).blocked = false :=
  ⟨(list_operations_exclude_blocked 0 1 7 3
      { rows := [⟨1, "a", false, false, false, none, 3, 7⟩], nextId := 2 }
      { rows := [⟨7, "p", none, false, false, 3⟩], nextId := 8 }).1
      _ (by decide),
   (list_operations_exclude_blocked 0 1 7 3
      { rows := [⟨1, "a", false, false, false, none, 3, 7⟩], nextId := 2 }
      { rows := [⟨7, "p", none, false, false, 3⟩], nextId := 8 }).2.1
      _ (by decide),
   (list_operations_exclude_blocked 0 1 7 3
      { rows := [⟨1, "a", false, false, false, none, 3, 7⟩], nextId := 2 }
      { rows := [⟨7, "p", none, false, false, 3⟩], nextId := 8 }).2.2.1
      _ (by decide),
   (list_operations_exclude_blocked 0 1 7 3
      { rows := [⟨1, "a", false, false, false, none, 3, 7⟩], nextId := 2 }
      { rows := [⟨7, "p", none, false, false, 3⟩], nextId := 8 }).2.2.2
      _ (by decide)⟩

/-- The spec's notion of "contains the substring": the lowercased text
splits as some prefix text, the needle, and some suffix text. -/
def spec_contains_substring (hay needle : String) : Prop :=
  ∃ a b : String, hay = a ++ needle ++ b

/-- Bridge: the embedded Python `in` test agrees with the spec's
substring decomposition. -/
theorem pyContains_iff_spec (hay needle : String) :
    pyContains hay needle = true ↔ spec_contains_substring hay needle := by
  simp only [pyContains, decide_eq_true_eq, spec_contains_substring]
  constructor
  · rintro ⟨s, t, hst⟩
    exact ⟨String.mk s, String.mk t,
      String.ext (by simp only [String.data_append]; exact hst.symm)⟩
  · rintro ⟨a, b, rfl⟩
    exact ⟨a.data, b.data, by simp [String.data_append]⟩

/-- C7: the reply generator returns the "help" response when the
lowercased text contains the substring "help" (even if it also contains
"issue": help is checked first), otherwise the "issue" response when it
contains "issue", otherwise the catch-all thanks. -/
theorem generate_relevant_response_rules (t : String) :
    (spec_contains_substring (pyLower t) "help" →
      generate_relevant_response t =
        "Thanks for your question! We will help you soon.") ∧
    (¬ spec_contains_substring (pyLower t) "help" →
      spec_contains_substring (pyLower t) "issue" →
      generate_relevant_response t =
        "Sorry to hear about your issue. We are looking into it.") ∧
    (¬ spec_contains_substring (pyLower t) "help" →
      ¬ spec_contains_substring (pyLower t) "issue" →
      generate_relevant_response t = "Thank you for your comment!") := by
  refine ⟨?_, ?_, ?_⟩
  · intro h
    have hb : pyContains (pyLower t) "help" = true :=
      (pyContains_iff_spec _ _).mpr h
    simp [generate_relevant_response, hb]
  · intro hn hi
    have hb : ¬ pyContains (pyLower t) "help" = true :=
      fun hc => hn ((pyContains_iff_spec _ _).mp hc)
    have hb2 : pyContains (pyLower t) "issue" = true :=
      (pyContains_iff_spec _ _).mpr hi
    simp [generate_relevant_response, hb, hb2]
  · intro hn hni
    have hb : ¬ pyContains (pyLower t) "help" = true :=
      fun hc => hn ((pyContains_iff_spec _ _).mp hc)
    have hb2 : ¬ pyContains (pyLower t) "issue" = true :=
      fun hc => hni ((pyContains_iff_spec _ _).mp hc)
    simp [generate_relevant_response, hb, hb2]

/-- Witness for C7: the spec's tie-break example — a text containing
both "help" and "issue" yields the help response — and the catch-all on
a neutral text. -/
theorem generate_relevant_response_rules_witness :
    generate_relevant_response "I need help with an issue" =
      "Thanks for your question! We will help you soon." ∧
    generate_relevant_response "random text" =
      "Thank you for your comment!" :=
  ⟨(generate_relevant_response_rules "I need help with an issue").1
      ⟨"i need ", " with an issue", by decide⟩,
   (generate_relevant_response_rules "random text").2.2
      (fun h => absurd ((pyContains_iff_spec _ _).mpr h) (by decide))
      (fun h => absurd ((pyContains_iff_spec _ _).mpr h) (by decide))⟩
